import Mathlib

/-!
Shallow embedding of the go-reflector library (reflector.go / slice.go):
the value-wrapper predicates, the conversion engine `convertToType`, the
slice view `SliceRefl` and the comparison engine `CompareTo`.

Modelling conventions:
* Go values reachable through the library's entry points are represented
  by `GoVal`, `reflect.Type` by `GoType` and `reflect.Kind` by `GoKind`.
  `Reflect` immediately unwraps interface values, so interface kinds never
  occur at the top level of a wrapper and are omitted from the domain.
* float64 is modelled by `GoFloat`: the IEEE NaN plus exact rationals.
  Rounding, signed zero and the two infinities are outside the model
  (infinities compare reflexively like ordinary numbers, so no verified
  property depends on them); NaN comparisons follow IEEE semantics.
* Machine-integer wrap-around is modelled only where a Go conversion
  forces it (explicitly, mod 2^64).
* Go runtime panics that the library can actually hit are represented by
  dedicated `GoErr.goPanic*` constructors, so they stay distinguishable
  from ordinary returned errors.
* Non-nil function values are excluded from the domain: `IsZero` compares
  the raw value against the zero value with the Go `==` operator, which
  panics for function values — `CompareTo` on such operands crashes the
  process instead of returning, so no returned-result statement can hold
  for them.
* Maps and channels are identified by their nil-ness only; no verified
  property depends on map contents or channel contents.
-/

/-- The subset of `reflect.Kind` inhabited by the value domain. -/
inductive GoKind where
  | kint | kuint | kint64 | kfloat64 | kbool | kstring
  | kstruct | kslice | kptr | kmap | kchan | kfunc
deriving DecidableEq, Repr

/-- Go types occurring in the embedding.  `ttime` is the struct type
`time.Time`, `tduration` is `time.Duration` (kind int64, implements
`fmt.Stringer`).  `tmap`, `tchan`, `tfunc` stand for one representative
map/channel/function type each. -/
inductive GoType where
  | tint | tuint | tfloat64 | tbool | tstring
  | ttime
  | tduration
  | tslice (elem : GoType)
  | tptr (elem : GoType)
  | tmap | tchan | tfunc
deriving DecidableEq, Repr

/-- `reflect.Type.Kind()`. -/
def kindOf : GoType → GoKind
  | .tint => .kint
  | .tuint => .kuint
  | .tfloat64 => .kfloat64
  | .tbool => .kbool
  | .tstring => .kstring
  | .ttime => .kstruct
  | .tduration => .kint64
  | .tslice _ => .kslice
  | .tptr _ => .kptr
  | .tmap => .kmap
  | .tchan => .kchan
  | .tfunc => .kfunc

/-- `IsNumericKind` (reflector.go): true for the integer, unsigned and
floating kinds.  The modelled kinds are the subset inhabited by the value
domain. -/
def IsNumericKind : GoKind → Bool
  | .kint | .kuint | .kint64 | .kfloat64 => true
  | _ => false

/-- `reflect.Type.Elem()`; only ever called on pointer and slice types,
the fall-through value is irrelevant. -/
def GoType.elemType : GoType → GoType
  | .tptr e => e
  | .tslice e => e
  | t => t

/-- A float64 value: the IEEE NaN, or an exact finite magnitude.  The
two infinities are not modelled (see the header note). -/
inductive GoFloat where
  | nan
  | num (x : Rat)
deriving DecidableEq, Repr

instance (n : Nat) : OfNat GoFloat n := ⟨.num n⟩

/-- Go `==` on float64: NaN compares unequal to everything, including
itself; finite values compare exactly. -/
def goFloatEq : GoFloat → GoFloat → Bool
  | .num x, .num y => decide (x = y)
  | _, _ => false

/-- Go `<` on float64: false whenever either side is NaN. -/
def goFloatLt : GoFloat → GoFloat → Bool
  | .num x, .num y => decide (x < y)
  | _, _ => false

/-- Go `<=` on float64: false whenever either side is NaN. -/
def goFloatLe : GoFloat → GoFloat → Bool
  | .num x, .num y => decide (x ≤ y)
  | _, _ => false

mutual

/-- The value domain.  `vtime n` is a `time.Time` holding the instant
whose (int64-wrapped) `UnixNano` is `n`; `vdur` a `time.Duration`;
`vptr e t` a non-nil `*e` pointing at `t` and `vptrNil e` a nil `*e`;
`vslice e xs` a non-nil `[]e` and `vsliceNil e` a nil `[]e`.  `vfunc` is
the nil function value (see the header note).  `GoValList` is a plain
cons-list of values, kept as a separate mutual inductive. -/
inductive GoVal where
  | vint (n : Int)
  | vuint (n : Nat)
  | vfloat (x : GoFloat)
  | vbool (b : Bool)
  | vstr (s : String)
  | vtime (nanos : Int)
  | vdur (n : Int)
  | vsliceNil (elem : GoType)
  | vslice (elem : GoType) (xs : GoValList)
  | vptrNil (elem : GoType)
  | vptr (elem : GoType) (tgt : GoVal)
  | vmap (nil : Bool)
  | vchan (nil : Bool)
  | vfunc
deriving DecidableEq, Repr

inductive GoValList where
  | nil
  | cons (v : GoVal) (l : GoValList)
deriving DecidableEq, Repr

end

/-- Convert the embedded element list to an ordinary `List`. -/
def GoValList.toList : GoValList → List GoVal
  | .nil => []
  | .cons v l => v :: l.toList

/-- Build the embedded element list from an ordinary `List`. -/
def GoValList.ofList : List GoVal → GoValList
  | [] => .nil
  | v :: l => .cons v (GoValList.ofList l)

theorem GoValList.toList_ofList (l : List GoVal) :
    (GoValList.ofList l).toList = l := by
  induction l with
  | nil => rfl
  | cons v l ih => simp [GoValList.ofList, GoValList.toList, ih]

/-- `reflect.TypeOf` of the wrapped value. -/
def GoVal.typeOf : GoVal → GoType
  | .vint _ => .tint
  | .vuint _ => .tuint
  | .vfloat _ => .tfloat64
  | .vbool _ => .tbool
  | .vstr _ => .tstring
  | .vtime _ => .ttime
  | .vdur _ => .tduration
  | .vsliceNil e => .tslice e
  | .vslice e _ => .tslice e
  | .vptrNil e => .tptr e
  | .vptr e _ => .tptr e
  | .vmap _ => .tmap
  | .vchan _ => .tchan
  | .vfunc => .tfunc

def GoVal.IsPtr (v : GoVal) : Bool := kindOf v.typeOf == .kptr

def GoVal.IsString (v : GoVal) : Bool := kindOf v.typeOf == .kstring

def GoVal.IsSlice (v : GoVal) : Bool := kindOf v.typeOf == .kslice

/-- `Reflector.IsNil` (reflector.go): the kind switch admits chan, func,
interface, map, pointer and slice kinds and asks `reflect.Value.IsNil`
for those; every other kind returns `false`.  All wrappers in the model
are valid, so the `!r.IsValid()` guard of the source never fires. -/
def GoVal.IsNil : GoVal → Bool
  | .vptrNil _ => true
  | .vptr _ _ => false
  | .vsliceNil _ => true
  | .vslice _ _ => false
  | .vmap nil => nil
  | .vchan nil => nil
  | .vfunc => true
  | _ => false

/-- The (int64-wrapped) `UnixNano` of the zero `time.Time`, i.e. the
value `time.Time{}.UnixNano()` returns in Go.  The zero time is the only
`time.Time` whose wrapper `IsZero` holds, and the model identifies
instants by their `UnixNano`. -/
def zeroTimeUnixNano : Int := -6795364578871345152

/-- `Reflector.IsZero`: nil values are zero; slice/array/map kinds are
never compared (uncomparable) and report `false`; all remaining kinds
compare the raw value against `reflect.Zero` of their type with the Go
`==` operator, which on this domain is structural equality with the
type's zero value. -/
def GoVal.IsZero : GoVal → Bool
  | .vint n => n == 0
  | .vuint n => n == 0
  | .vfloat x => x == 0
  | .vbool b => !b
  | .vstr s => s == ""
  | .vtime n => n == zeroTimeUnixNano
  | .vdur n => n == 0
  | .vsliceNil _ => true
  | .vslice _ _ => false
  | .vptrNil _ => true
  | .vptr _ _ => false
  | .vmap nil => nil
  | .vchan nil => nil
  | .vfunc => true

/-- `Reflector.DeepIsZero`: `IsZero`, but pointers (and interfaces, which
the model never surfaces) recurse one level at a time through `Elem`.
A non-nil pointer is never itself zero, so the recursion is exactly the
first match arm; every other value answers `IsZero`. -/
def GoVal.DeepIsZero : GoVal → Bool
  | .vptr _ t => t.DeepIsZero
  | v => v.IsZero

/-- `Reflector.Elem`: the pointed-to value for a non-nil pointer, `nil`
(modelled `none`) for nil pointers and non-indirecting kinds. -/
def GoVal.Elem : GoVal → Option GoVal
  | .vptr _ t => some t
  | _ => none

/-- The error domain.  Constructors mirror the `ERR_*` string constants
and the ad-hoc error strings of the source; `conversionError e` is the
`"Conversion error: " + e.Error()` wrapping done by `CompareTo`;
`likeOnNumbers` is the `invalid_filter_comparison` error of
`compareFloat64Values`; `invalidComparison` is the `impossible_comparison`
error (its formatted message is not modelled); `parseFloatError` stands
for the `strconv.ParseFloat` error value.  The `goPanic*` constructors
mark Go runtime panics (not returned errors) that the code can actually
reach. -/
inductive GoErr where
  | invalidValue
  | typeMismatch
  | unconvertableTypes
  | invalidTime
  | unknownOperator
  | invalidComparison
  | likeOnNumbers
  | parseFloatError
  | unsettableValue
  | notASlice
  | indexOutOfBounds
  | cantAppendNotAPointer
  | conversionError (e : GoErr)
  | goPanicNilReflector
  | goPanicTypeAssert
  | goPanicUnknownOp
deriving DecidableEq, Repr

/-- A `SliceReflector` (slice.go): element type, current underlying
elements and whether the view was created from a pointer (`canAppend`). -/
structure SliceRefl where
  elemTy : GoType
  elems : List GoVal
  canAppend : Bool
deriving DecidableEq, Repr

/-- The `interface{}` result of `ConvertToType`: normally a value, but
`SliceReflector.ConvertToType` returns the `*SliceReflector` itself when
the source slice is empty, and that object then leaks to the caller. -/
inductive ConvOut where
  | val (v : GoVal)
  | sliceRefl (s : SliceRefl)
deriving DecidableEq, Repr

/-- Lexicographic strict order on character lists.  Go compares strings
by their UTF-8 bytes; byte order and code-point order coincide under
UTF-8, so comparing `Char`s is faithful. -/
def charListLt : List Char → List Char → Bool
  | [], [] => false
  | [], _ :: _ => true
  | _ :: _, [] => false
  | a :: as, b :: bs => decide (a < b) || (decide (a = b) && charListLt as bs)

theorem charListLt_irrefl (l : List Char) : charListLt l l = false := by
  induction l with
  | nil => rfl
  | cons a as ih => simp [charListLt, ih, lt_irrefl]

/-- `p` is a leading segment of `l`. -/
def listLeads : List Char → List Char → Bool
  | [], _ => true
  | _ :: _, [] => false
  | a :: as, b :: bs => decide (a = b) && listLeads as bs

/-- Helper for `goContains`: does `sub` start at some position of `l`? -/
def containsAux (sub : List Char) : List Char → Bool
  | [] => listLeads sub []
  | c :: rest => listLeads sub (c :: rest) || containsAux sub rest

/-- `strings.Contains(s, sub)`. -/
def goContains (s sub : String) : Bool := containsAux sub.data s.data

def digitVal (c : Char) : Nat := c.toNat - Char.toNat ('0')

def natOfDigits (cs : List Char) : Nat :=
  cs.foldl (fun a c => a * 10 + digitVal c) 0

/-- Decimal mantissa: digits with at most one point and at least one
digit overall. -/
def parseMantissa (cs : List Char) : Option Rat :=
  let (ip, rest) := cs.span Char.isDigit
  match rest with
  | [] => if ip.isEmpty then none else some ((natOfDigits ip : Int) : Rat)
  | '.' :: frac =>
      if frac.all Char.isDigit then
        if ip.isEmpty && frac.isEmpty then none
        else some (((natOfDigits ip : Int) : Rat) +
          ((natOfDigits frac : Int) : Rat) / ((10 : Rat) ^ frac.length))
      else none
  | _ => none

/-- Consume one optional sign; `true` means negative. -/
def parseSign : List Char → Bool × List Char
  | '+' :: r => (false, r)
  | '-' :: r => (true, r)
  | r => (false, r)

/-- Split at the first exponent marker, if any. -/
def splitExpAux : List Char → Option (List Char × List Char)
  | [] => none
  | c :: r =>
    if c = 'e' || c = 'E' then some ([], r)
    else match splitExpAux r with
      | some (m, e) => some (c :: m, e)
      | none => none

/-- `strconv.ParseFloat(s, 64)` for plain decimal literals, modelled
exactly (sign, mantissa, optional exponent).  The result is the exact
rational; rounding to float64, and the `Inf`/`NaN`/hexadecimal/underscore
forms, are not modelled — no verified property depends on them. -/
def parseFloat (s : String) : Option Rat :=
  let cs := s.data
  let sm := parseSign cs
  let parts : List Char × Option (List Char) :=
    match splitExpAux sm.2 with
    | some (m, e) => (m, some e)
    | none => (sm.2, none)
  match parseMantissa parts.1 with
  | none => none
  | some m =>
    let signed : Rat := if sm.1 then -m else m
    match parts.2 with
    | none => some signed
    | some ecs =>
      let esm := parseSign ecs
      if esm.2.isEmpty || !esm.2.all Char.isDigit then none
      else
        let e := natOfDigits esm.2
        some (if esm.1 then signed / (10 : Rat) ^ e else signed * (10 : Rat) ^ e)

/-- The Go conversion of an integer to `string`: the one-rune string of
the code point, or the replacement character for invalid code points. -/
def runeStringOfInt (n : Int) : String :=
  if 0 ≤ n ∧ (n < 55296 ∨ (57344 ≤ n ∧ n < 1114112)) then
    String.mk [Char.ofNat n.toNat]
  else
    "�"

/-- Abstracted rendering of `time.Time.String()`.  Only its existence
(the `fmt.Stringer` dispatch in the conversion engine) matters to the
verified properties, not the exact text. -/
def timeString (n : Int) : String := "time.Time<" ++ toString n ++ ">"

/-- Abstracted rendering of `time.Duration.String()` (see `timeString`). -/
def durString (n : Int) : String := "time.Duration<" ++ toString n ++ ">"

/-- The `fmt.Stringer` capability: on this domain only `time.Time` and
`time.Duration` implement it. -/
def stringerOf : GoVal → Option String
  | .vtime n => some (timeString n)
  | .vdur n => some (durString n)
  | _ => none

/-- Abstracted `fmt.Sprintf("%v", v)` fallback rendering.  It never
fails; the exact text of composite and floating values is not modelled —
no verified property depends on it. -/
def goSprintf : GoVal → String
  | .vint n => toString n
  | .vuint n => toString n
  | .vfloat (.num q) => toString q
  | .vfloat .nan => "NaN"
  | .vbool b => if b then ("true") else ("false")
  | .vstr s => s
  | .vtime n => timeString n
  | .vdur n => durString n
  | .vsliceNil _ => "[]"
  | .vslice _ _ => "[...]"
  | .vptrNil _ => "<nil>"
  | .vptr _ _ => "&{...}"
  | .vmap _ => "map[...]"
  | .vchan _ => "chan"
  | .vfunc => "<nil>"

/-- Read exactly two decimal digits. -/
def get2 : List Char → Option (Nat × List Char)
  | a :: b :: r =>
    if a.isDigit && b.isDigit then some (digitVal a * 10 + digitVal b, r)
    else none
  | _ => none

/-- Read exactly four decimal digits. -/
def get4 : List Char → Option (Nat × List Char)
  | a :: b :: c :: d :: r =>
    if a.isDigit && b.isDigit && c.isDigit && d.isDigit then
      some (digitVal a * 1000 + digitVal b * 100 + digitVal c * 10 + digitVal d, r)
    else none
  | _ => none

/-- Expect a fixed literal character. -/
def expectChar (c : Char) : List Char → Option (List Char)
  | x :: r => if x = c then some r else none
  | [] => none

def isLeapYear (y : Nat) : Bool :=
  y % 4 == 0 && (y % 100 != 0 || y % 400 == 0)

def daysInMonth (y m : Nat) : Nat :=
  match m with
  | 1 => 31
  | 2 => if isLeapYear y then 29 else 28
  | 3 => 31
  | 4 => 30
  | 5 => 31
  | 6 => 30
  | 7 => 31
  | 8 => 31
  | 9 => 30
  | 10 => 31
  | 11 => 30
  | 12 => 31
  | _ => 0

/-- Days between the civil date `y-m-d` and 1970-01-01 (proleptic
Gregorian; the standard era-based formula, valid for the four-digit
years the RFC3339 layout admits). -/
def daysFromCivil (y m d : Nat) : Int :=
  let yi : Int := if m ≤ 2 then (y : Int) - 1 else (y : Int)
  let era : Int := (if 0 ≤ yi then yi else yi - 399) / 400
  let yoe : Int := yi - era * 400
  let mp : Int := ((m : Int) + 9) % 12
  let doy : Int := (153 * mp + 2) / 5 + (d : Int) - 1
  let doe : Int := yoe * 365 + yoe / 4 - yoe / 100 + doy
  era * 146097 + doe - 719468

/-- Fractional seconds: a nonempty digit run after the point; the first
nine digits give the nanoseconds (extra precision is discarded). -/
def parseFrac (cs : List Char) : Option (Int × List Char) :=
  let (ds, r) := cs.span Char.isDigit
  if ds.isEmpty then none
  else
    let d9 := ds.take 9
    some (((natOfDigits d9 * 10 ^ (9 - d9.length) : Nat) : Int), r)

/-- Zone suffix of the RFC3339 layout: `Z` or `±hh:mm`, ending the
input; returns the offset in seconds east of UTC. -/
def parseZone : List Char → Option Int
  | ['Z'] => some 0
  | c :: r =>
    if c = '+' || c = '-' then
      match get2 r with
      | some (zh, r1) =>
        match expectChar ':' r1 with
        | some r2 =>
          match get2 r2 with
          | some (zm, r3) =>
            if r3.isEmpty && zh ≤ 23 && zm ≤ 59 then
              some ((if c = '-' then -1 else 1) * ((zh : Int) * 3600 + (zm : Int) * 60))
            else none
          | none => none
        | none => none
      | none => none
    else none
  | [] => none

/-- Modelled from the Go standard library: `time.Parse(time.RFC3339, s)`
reduced to the instant's `UnixNano`.  The fixed layout is
`YYYY-MM-DDThh:mm:ss[.frac](Z|±hh:mm)` with the source's range checks on
month, day-of-month, hour, minute and second; leap seconds, and the
int64 wrap-around of `UnixNano` for instants outside its range, are not
modelled. -/
def parseRFC3339 (s : String) : Option Int := do
  let cs := s.data
  let (y, r0) ← get4 cs
  let r1 ← expectChar '-' r0
  let (mo, r2) ← get2 r1
  let r3 ← expectChar '-' r2
  let (d, r4) ← get2 r3
  let r5 ← expectChar 'T' r4
  let (h, r6) ← get2 r5
  let r7 ← expectChar ':' r6
  let (mi, r8) ← get2 r7
  let r9 ← expectChar ':' r8
  let (se, r10) ← get2 r9
  let (frac, r11) ←
    match r10 with
    | '.' :: rf => parseFrac rf
    | _ => some ((0 : Int), r10)
  let off ← parseZone r11
  if 1 ≤ mo && mo ≤ 12 && 1 ≤ d && d ≤ daysInMonth y mo &&
      h ≤ 23 && mi ≤ 59 && se ≤ 59 then
    some ((daysFromCivil y mo d * 86400 + (h : Int) * 3600 + (mi : Int) * 60 +
      (se : Int) - off) * 1000000000 + frac)
  else none

/-- Truncation toward zero, the Go float-to-integer conversion rule. -/
def ratTrunc (x : Rat) : Int := if 0 ≤ x then x.floor else x.ceil

/-- Two's-complement wrap into int64 range, written with an explicit
mod 2^64. -/
def wrapInt64 (n : Int) : Int := (n + 2 ^ 63) % 2 ^ 64 - 2 ^ 63

/-- Wrap into uint64 range (explicit mod 2^64). -/
def wrapUint64 (n : Int) : Nat := (n % 2 ^ 64).toNat

/-- The float64 magnitude of a numeric value. -/
def floatOfNumeric : GoVal → Option GoFloat
  | .vint n => some (.num (n : Rat))
  | .vuint n => some (.num ((n : Int) : Rat))
  | .vdur n => some (.num (n : Rat))
  | .vfloat x => some x
  | _ => none

/-- Build a value of a numeric target type from a float64 magnitude,
following Go conversion semantics (truncation toward zero, wrap-around
for the integer targets).  Conversions from integers to float64 are kept
exact: the 2^53 rounding of Go is not modelled and no verified property
depends on it.  Converting NaN to an integer type is
implementation-specific in Go; the model fixes the amd64 results
(-2^63 signed, 2^63 unsigned) — unexercised by any verified property. -/
def numericOfFloat (t : GoType) (x : GoFloat) : GoVal :=
  match t with
  | .tint => .vint (match x with | .num q => wrapInt64 (ratTrunc q) | .nan => -(2 ^ 63))
  | .tuint => .vuint (match x with | .num q => wrapUint64 (ratTrunc q) | .nan => 2 ^ 63)
  | .tduration => .vdur (match x with | .num q => wrapInt64 (ratTrunc q) | .nan => -(2 ^ 63))
  | .tfloat64 => .vfloat x
  | _ => .vfloat x

/-- The integer kinds of the domain (rune-string conversions apply to
these but not to floats). -/
def isIntegerKind : GoKind → Bool
  | .kint | .kuint | .kint64 => true
  | _ => false

/-- `reflect.Type.ConvertibleTo` restricted to this domain: identical
types, numeric-to-numeric, and integer-to-string (the Go rune-string
conversion).  String-to-byte/rune-slice is absent because the domain has
no uint8/int32 element types. -/
def convertibleTo (s t : GoType) : Bool :=
  s == t ||
  (IsNumericKind (kindOf s) && IsNumericKind (kindOf t)) ||
  (isIntegerKind (kindOf s) && t == .tstring)

/-- `reflect.Value.Convert` on this domain; `none` when the conversion
would panic (types not convertible). -/
def nativeConvert (v : GoVal) (t : GoType) : Option GoVal :=
  if v.typeOf = t then some v
  else if IsNumericKind (kindOf v.typeOf) && IsNumericKind (kindOf t) then
    (floatOfNumeric v).map (numericOfFloat t)
  else if isIntegerKind (kindOf v.typeOf) && t = .tstring then
    match v with
    | .vint n => some (.vstr (runeStringOfInt n))
    | .vuint n => some (.vstr (runeStringOfInt n))
    | .vdur n => some (.vstr (runeStringOfInt n))
    | _ => none
  else none

def SliceRefl.Len (s : SliceRefl) : Nat := s.elems.length

/-- `SliceReflector.Index` (slice.go): `nil` when `i > Len()-1`,
otherwise the element wrapper.  Go indices are machine ints, so the
argument is an `Int`; a negative index would make `reflect` panic in Go
and is outside the verified properties, the model then reads from the
list with `toNat`. -/
def SliceRefl.Index (s : SliceRefl) (i : Int) : Option GoVal :=
  if i > (s.Len : Int) - 1 then none
  else s.elems.get? i.toNat

/-- `SliceReflector.IndexValue`: `Index(i).Interface()` when the index
exists, `nil` otherwise.  `Interface` cannot fail on this domain. -/
def SliceRefl.IndexValue (s : SliceRefl) (i : Int) : Option GoVal :=
  match s.Index i with
  | some v => some v
  | none => none

/-- The loop body of `SliceReflector.Append`: each value is checked
against the element type (returning `type_mismatch` at the first
offender, before anything is written), and `newSlice` is rebuilt from
the ORIGINAL underlying slice plus the current value — so with several
arguments only the last one survives, exactly as in the source. -/
def appendCheck (elemTy : GoType) (orig : List GoVal) :
    List GoVal → Option (List GoVal) → Except GoErr (Option (List GoVal))
  | [], acc => .ok acc
  | v :: rest, _acc =>
    if v.typeOf ≠ elemTy then .error .typeMismatch
    else appendCheck elemTy orig rest (some (orig ++ [v]))

/-- `SliceReflector.Append`: fails when the view was not created from a
pointer; otherwise runs the check loop and only then writes the new
slice through the pointer — and DISCARDS the error of that final
`s.value.Elem().Set(...)` call.  With zero arguments the written
`reflect.Value` is the invalid zero value, `Set` rejects it, and the
discarded error makes `Append` return nil with the slice untouched.
The result is the (error?, final state) pair; on every error path the
underlying slice is untouched. -/
def SliceRefl.Append (s : SliceRefl) (values : List GoVal) :
    Option GoErr × SliceRefl :=
  if !s.canAppend then (some .cantAppendNotAPointer, s)
  else
    match appendCheck s.elemTy s.elems values none with
    | .error e => (some e, s)
    | .ok none => (none, s)
    | .ok (some xs) => (none, { s with elems := xs })

/-- One element of `SliceReflector.ConvertToType`'s loop: interface
elements would be unwrapped first (the domain stores concrete elements,
so that step is the identity); a pointer element is dereferenced when
the target is not a pointer — for a nil pointer the resulting nil
wrapper's `.Type()` call panics; then the element is converted with the
native `Convert` if needed, guarded by `ConvertibleTo`. -/
def sliceConvItem (typ : GoType) (item : GoVal) : Except GoErr GoVal :=
  let step : Option GoVal :=
    if item.IsPtr && !(kindOf typ == .kptr) then item.Elem else some item
  match step with
  | none => .error .goPanicNilReflector
  | some it =>
    if it.typeOf ≠ typ then
      if !convertibleTo it.typeOf typ then .error .typeMismatch
      else
        match nativeConvert it typ with
        | some conv => .ok conv
        | none => .error .goPanicTypeAssert
    else .ok it

/-- The element loop of `SliceReflector.ConvertToType`, appending each
converted element to the freshly created target-typed slice view. -/
def sliceConvLoop (typ : GoType) : List GoVal → SliceRefl → Except GoErr SliceRefl
  | [], newSlice => .ok newSlice
  | item :: rest, newSlice =>
    match sliceConvItem typ item with
    | .error e => .error e
    | .ok it =>
      match newSlice.Append [it] with
      | (some e, _) => .error e
      | (none, ns) => sliceConvLoop typ rest ns

/-- `SliceReflector.ConvertToType` (slice.go), `typ` being the TARGET
ELEMENT type.  A fresh empty slice view of the target type is created;
for an empty source the view OBJECT itself is returned (`return
newSlice, nil`), otherwise every element is converted and the new
underlying slice is returned (`newSlice.Interface()`). -/
def sliceConvertToType (s : SliceRefl) (typ : GoType) : Except GoErr ConvOut :=
  let newSlice : SliceRefl := ⟨typ, [], true⟩
  if s.Len == 0 then .ok (.sliceRefl newSlice)
  else
    match sliceConvLoop typ s.elems newSlice with
    | .error e => .error e
    | .ok ns => .ok (.val (.vslice typ (GoValList.ofList ns.elems)))

/-- The slice view `r.Slice()` builds for a value of slice kind: a
direct view over the slice (`canAppend = false`); a nil slice has length
zero. -/
def sliceReflOfSlice (r : GoVal) : SliceRefl :=
  match r with
  | .vslice e xs => ⟨e, xs.toList, false⟩
  | .vsliceNil e => ⟨e, [], false⟩
  | _ => ⟨.tint, [], false⟩

/-- ASCII whitespace, standing for Go's `unicode.IsSpace` (the non-ASCII
space code points are not modelled; no verified property uses them). -/
def isSpaceChar (c : Char) : Bool :=
  c = ' ' || c = '\t' || c = '\n' || c = '\x0b' || c = '\x0c' || c = '\r'

def dropWhileSpace : List Char → List Char
  | [] => []
  | c :: r => if isSpaceChar c then dropWhileSpace r else c :: r

/-- `strings.TrimSpace`. -/
def goTrimSpace (s : String) : String :=
  String.mk ((dropWhileSpace (dropWhileSpace s.data.reverse).reverse))

/-- ASCII lower-casing, standing for `strings.ToLower` (non-ASCII case
mappings are not modelled). -/
def toLowerChar (c : Char) : Char :=
  if 'A' ≤ c && c ≤ 'Z' then Char.ofNat (c.toNat + 32) else c

/-- `strings.ToLower`. -/
def goToLower (s : String) : String := String.mk (s.data.map toLowerChar)

/-- The special string-source-to-bool rule of `ConvertToType`: matched
variants yield a boolean, anything else falls through to the remaining
conversion steps. -/
def boolSpecial (r : GoVal) (typ : GoType) : Option Bool :=
  if kindOf typ == .kbool && r.IsString then
    match r with
    | .vstr s =>
      let str := goToLower (goTrimSpace s)
      if str = "y" || str = "yes" || str = "1" then some true
      else if str = "n" || str = "no" || str = "0" then some false
      else none
    | _ => none
  else none

/-- `Reflector.ConvertToType` (reflector.go), the conversion engine:
the ordered sequence of special cases of the source —
identity; slice-to-slice; value-to-pointer; pointer-to-value (a nil
pointer panics in `r.Elem().Interface()`); string-to-`time.Time` (or
pointer to it) via RFC3339 with `invalid_time` on failure; the
string-to-bool table (falling through when unmatched); the string
target (byte-slice reinterpretation is unreachable on this domain,
`fmt.Stringer` then `fmt.Sprintf`); string-to-numeric via `ParseFloat`;
and finally the recover-guarded native conversion, whose nil result
becomes `unconvertable_types`. -/
def convertToType (r : GoVal) (typ : GoType) : Except GoErr ConvOut :=
  if typ = r.typeOf then .ok (.val r)
  else if r.IsSlice && kindOf typ == .kslice then
    sliceConvertToType (sliceReflOfSlice r) typ.elemType
  else if kindOf typ == .kptr && typ.elemType = r.typeOf then
    .ok (.val (.vptr r.typeOf r))
  else if r.IsPtr && !(kindOf typ == .kptr) && r.typeOf.elemType = typ then
    match r with
    | .vptr _ t => .ok (.val t)
    | _ => .error .goPanicNilReflector
  else if (typ = .ttime || typ = .tptr .ttime) && kindOf r.typeOf == .kstring then
    match r with
    | .vstr s =>
      match parseRFC3339 s with
      | none => .error .invalidTime
      | some n =>
        if typ = .ttime then .ok (.val (.vtime n))
        else .ok (.val (.vptr .ttime (.vtime n)))
    | _ => .error .goPanicTypeAssert
  else
    match boolSpecial r typ with
    | some bv => .ok (.val (.vbool bv))
    | none =>
      if kindOf typ == .kstring then
        match stringerOf r with
        | some str => .ok (.val (.vstr str))
        | none => .ok (.val (.vstr (goSprintf r)))
      else if kindOf r.typeOf == .kstring && IsNumericKind (kindOf typ) then
        match r with
        | .vstr s =>
          match parseFloat s with
          | none => .error .parseFloatError
          | some num => .ok (.val (numericOfFloat typ (.num num)))
        | _ => .error .goPanicTypeAssert
      else
        match nativeConvert r typ with
        | none => .error .unconvertableTypes
        | some v => .ok (.val v)

/-- `compareStringValues` (reflector.go).  Go compares strings by their
UTF-8 bytes; `charListLt` is the corresponding code-point order.  The
trailing panic for an unknown operator is unreachable because
`CompareTo` checks the operator first. -/
def compareStringValues (condition a b : String) : Except GoErr Bool :=
  if condition = "=" || condition = "==" then .ok (decide (a = b))
  else if condition = "!=" then .ok (decide (a ≠ b))
  else if condition = "like" then .ok (goContains a b)
  else if condition = "<" then .ok (charListLt a.data b.data)
  else if condition = "<=" then .ok (charListLt a.data b.data || decide (a = b))
  else if condition = ">" then .ok (charListLt b.data a.data)
  else if condition = ">=" then .ok (charListLt b.data a.data || decide (a = b))
  else .error .goPanicUnknownOp

/-- `compareFloat64Values` (reflector.go): the operator evaluated on two
float64 values with the Go float comparisons — `=`/`!=` are exact IEEE
equality (no epsilon; NaN unequal to everything, itself included);
`like` is rejected with the `invalid_filter_comparison` error. -/
def compareFloat64Values (condition : String) (a b : GoFloat) : Except GoErr Bool :=
  if condition = "=" || condition = "==" then .ok (goFloatEq a b)
  else if condition = "!=" then .ok (!goFloatEq a b)
  else if condition = "like" then .error .likeOnNumbers
  else if condition = "<" then .ok (goFloatLt a b)
  else if condition = "<=" then .ok (goFloatLe a b)
  else if condition = ">" then .ok (goFloatLt b a)
  else if condition = ">=" then .ok (goFloatLe b a)
  else .error .goPanicUnknownOp

/-- The operator switch at the top of `CompareTo`: the seven valid
operators pass through, `==` is canonicalised to `=`, anything else is
`unknown_operator`. -/
def canonOp (operator : String) : Option String :=
  if operator = "=" || operator = "!=" || operator = "like" || operator = "<" ||
      operator = "<=" || operator = ">" || operator = ">=" then some operator
  else if operator = "==" then some ("=") else none

/-- The first normalisation step of `CompareTo` on the left operand:
a deep-zero (or invalid) operand is replaced by `float64(0)`. -/
def zeroSubstA (r : GoVal) : GoVal :=
  if r.DeepIsZero then .vfloat 0 else r

/-- The one-level pointer dereference `if x.IsPtr() { x = x.Elem() }` of
`CompareTo`.  A nil pointer never reaches this step (it is deep-zero and
was substituted), so the fall-through arm is unreachable for pointers. -/
def derefOnce : GoVal → GoVal
  | .vptr _ t => t
  | v => v

/-- `CompareTo`'s reduction of `time.Time` operands to
`float64(t.UnixNano())`. -/
def timeToFloat : GoVal → GoVal
  | .vtime n => .vfloat (.num (n : Rat))
  | v => v

/-- `CompareTo`'s reduction of a `time.Duration` left operand to
`float64(d)`. -/
def durToFloat : GoVal → GoVal
  | .vdur d => .vfloat (.num (d : Rat))
  | v => v

/-- The right-operand zero substitution of `CompareTo`, INCLUDING the
swap `aVal, bVal = bVal, aVal; a, b = b, a`: when `b` is invalid or
deep-zero, the pair becomes `(float64(0), a)` — the substituted zero
ends up as the LEFT operand and the (already normalised) left operand
moves to the right. -/
def normB1 (a0 : GoVal) (value : Option GoVal) : GoVal × GoVal :=
  match value with
  | none => (.vfloat 0, a0)
  | some v => if v.DeepIsZero then (.vfloat 0, a0) else (a0, v)

/-- The duration reduction of the right operand carries the source's
copy-paste slip `b = Reflect(aVal)`: when `bVal` is a duration the new
`b` wrapper is rebuilt from the LEFT operand's value. -/
def normDurBug (aAfter b3 : GoVal) : GoVal :=
  match b3 with
  | .vdur _ => aAfter
  | b => b

/-- The whole normalisation pipeline of `CompareTo` (everything between
the operator check and the kind dispatch), producing the final pair
`(a, b)`.  The shadow variables `aVal`/`bVal` of the source coincide
with `a`/`b` at every point where they are read — the only divergence is
introduced by the `normDurBug` slip, after which `bVal` is only used in
the unmodelled text of the `impossible_comparison` message — so the
model tracks a single value per side. -/
def compareToNorm (r : GoVal) (value : Option GoVal) : GoVal × GoVal :=
  let a0 := derefOnce (zeroSubstA r)
  let ab := normB1 a0 value
  let a1 := durToFloat (timeToFloat ab.1)
  let b3 := timeToFloat (derefOnce ab.2)
  (a1, normDurBug a1 b3)

/-- `Reflector.Equals` applied to the `interface{}` result of a
conversion: `reflect.DeepEqual`, which on this domain is structural
equality; a leaked `*SliceReflector` object never deep-equals a wrapped
value. -/
def goEquals (r : GoVal) (value : ConvOut) : Bool :=
  match value with
  | .val v => decide (r = v)
  | .sliceRefl _ => false

/-- The kind dispatch of `CompareTo` after normalisation: the numeric
branch (either side of numeric kind: both sides converted to float64,
conversion failures wrapped as `Conversion error:`), the string branch
(left side textual: right side converted to string), the `=`/`!=`
branch (right side converted to the left type, structural equality),
and the `impossible_comparison` failure.  The `.(float64)`/`.(string)`
type assertions of the source cannot fail (marked `goPanicTypeAssert`). -/
def compareToDispatch (operator : String) (a b : GoVal) : Except GoErr Bool :=
  if IsNumericKind (kindOf a.typeOf) || IsNumericKind (kindOf b.typeOf) then
    match convertToType a .tfloat64 with
    | .error e => .error (.conversionError e)
    | .ok (.val (.vfloat numA)) =>
      match convertToType b .tfloat64 with
      | .error e => .error (.conversionError e)
      | .ok (.val (.vfloat numB)) => compareFloat64Values operator numA numB
      | .ok _ => .error .goPanicTypeAssert
    | .ok _ => .error .goPanicTypeAssert
  else if kindOf a.typeOf == .kstring then
    match convertToType b .tstring with
    | .error e => .error (.conversionError e)
    | .ok (.val (.vstr sB)) =>
      match a with
      | .vstr sA => compareStringValues operator sA sB
      | _ => .error .goPanicTypeAssert
    | .ok _ => .error .goPanicTypeAssert
  else if operator = "=" || operator = "!=" then
    match convertToType b a.typeOf with
    | .error e => .error (.conversionError e)
    | .ok out =>
      if operator = "=" then .ok (goEquals a out)
      else .ok (!goEquals a out)
  else .error .invalidComparison

/-- `Reflector.CompareTo` (reflector.go): operator check and
canonicalisation, then normalisation, then kind dispatch.  `value` is
the raw `interface{}` argument (`none` for a nil interface, which makes
the `Reflect` result invalid). -/
def CompareTo (r : GoVal) (value : Option GoVal) (operator : String) :
    Except GoErr Bool :=
  match canonOp operator with
  | none => .error .unknownOperator
  | some op =>
    let ab := compareToNorm r value
    compareToDispatch op ab.1 ab.2

/-- The identity case of the conversion engine. -/
theorem convertToType_self (c : GoVal) : convertToType c c.typeOf = .ok (.val c) := by
  simp [convertToType]

/-- Normalising a value against itself yields the same value on both
sides: the zero substitutions and the swap collapse (both sides become
`float64(0)`), and the dereference/time/duration reductions agree. -/
theorem compareToNorm_self (a : GoVal) :
    compareToNorm a (some a) =
      (durToFloat (timeToFloat (derefOnce (zeroSubstA a))),
       durToFloat (timeToFloat (derefOnce (zeroSubstA a)))) := by
  cases h : a.DeepIsZero with
  | true =>
    simp [compareToNorm, normB1, zeroSubstA, h, derefOnce, timeToFloat,
      durToFloat, normDurBug]
  | false =>
    have hz : zeroSubstA a = a := by simp [zeroSubstA, h]
    simp only [compareToNorm, normB1, h, hz]
    cases h2 : timeToFloat (derefOnce a) with
    | vdur d => simp [normDurBug, h2, durToFloat]
    | vint n => simp [normDurBug, h2, durToFloat]
    | vuint n => simp [normDurBug, h2, durToFloat]
    | vfloat x => simp [normDurBug, h2, durToFloat]
    | vbool b => simp [normDurBug, h2, durToFloat]
    | vstr s => simp [normDurBug, h2, durToFloat]
    | vtime n => simp [normDurBug, h2, durToFloat]
    | vsliceNil e => simp [normDurBug, h2, durToFloat]
    | vslice e xs => simp [normDurBug, h2, durToFloat]
    | vptrNil e => simp [normDurBug, h2, durToFloat]
    | vptr e t => simp [normDurBug, h2, durToFloat]
    | vmap b => simp [normDurBug, h2, durToFloat]
    | vchan b => simp [normDurBug, h2, durToFloat]
    | vfunc => simp [normDurBug, h2, durToFloat]

/-- Kind dispatch applied to one and the same normalised value, the
value not being the float64 NaN: `=` is always true and `!=` always
false; each ordering operator either answers reflexively (numeric and
string kinds) or fails with the `impossible_comparison` error (all
remaining kinds).  (At NaN the IEEE comparisons make every operator
except `!=` answer false; see `claim_C2_reflexivity`.) -/
theorem dispatchRefl (c : GoVal) (h : c ≠ .vfloat .nan) :
    compareToDispatch ("=") c c = .ok true ∧
    compareToDispatch ("!=") c c = .ok false ∧
    (compareToDispatch ("<=") c c = .ok true ∨
      compareToDispatch ("<=") c c = .error .invalidComparison) ∧
    (compareToDispatch (">=") c c = .ok true ∨
      compareToDispatch (">=") c c = .error .invalidComparison) ∧
    (compareToDispatch ("<") c c = .ok false ∨
      compareToDispatch ("<") c c = .error .invalidComparison) ∧
    (compareToDispatch (">") c c = .ok false ∨
      compareToDispatch (">") c c = .error .invalidComparison) := by
  cases c
  case vfloat x =>
    cases x with
    | nan => exact absurd rfl h
    | num q =>
      refine ⟨?_, ?_, ?_, ?_, ?_, ?_⟩ <;>
        simp +decide [compareToDispatch, convertToType, GoVal.typeOf, kindOf,
          IsNumericKind, GoVal.IsSlice, GoVal.IsPtr, GoVal.IsString,
          GoType.elemType, boolSpecial, stringerOf, nativeConvert,
          floatOfNumeric, numericOfFloat, compareFloat64Values, goFloatEq,
          goFloatLt, goFloatLe, compareStringValues, charListLt_irrefl,
          goEquals, le_refl, lt_irrefl]
  all_goals
    refine ⟨?_, ?_, ?_, ?_, ?_, ?_⟩ <;>
    simp +decide [compareToDispatch, convertToType, GoVal.typeOf, kindOf,
      IsNumericKind, GoVal.IsSlice, GoVal.IsPtr, GoVal.IsString,
      GoType.elemType, boolSpecial, stringerOf, nativeConvert,
      floatOfNumeric, numericOfFloat, compareFloat64Values, goFloatEq,
      goFloatLt, goFloatLe, compareStringValues, charListLt_irrefl,
      goEquals, le_refl, lt_irrefl]

/-- The kinds capable of holding an absence, as enumerated by the
`IsNil` switch (chan, func, interface, map, pointer, slice); the
interface kind is unwrapped by `Reflect` and never surfaces in a
wrapper. -/
def nilableKind : GoKind → Bool
  | .kchan | .kfunc | .kmap | .kptr | .kslice => true
  | _ => false

/-- C1, counterexample.  The claim says the zero-substitution swap makes
the real, non-zero operand the LEFT side of the subsequent dispatch.  At
`CompareTo("abc", nil, "=")` the normalised pair is
`(float64(0), "abc")` — the substituted zero is the left operand and the
real operand the right one — and the comparison consequently takes the
numeric path and fails parsing `"abc"` as a float, instead of the string
path the claimed orientation would take. -/
theorem claim_C1_counterexample :
    compareToNorm (.vstr ("abc")) none = (.vfloat 0, .vstr ("abc")) ∧
    CompareTo (.vstr ("abc")) none ("=") =
      .error (.conversionError .parseFloatError) := by
  exact ⟨by rfl, by rfl⟩

/-- C1 (amended): when the second operand is invalid or deep-zero, the
engine substitutes `float64(0)` for it and swaps the operands entirely,
so that the substituted ZERO becomes the left operand (forcing the
numeric branch of the dispatch) and the already-normalised real operand
becomes the right operand. -/
theorem claim_C1_swap_zero_left (r : GoVal) (value : Option GoVal)
    (h : value = none ∨ ∃ v, value = some v ∧ v.DeepIsZero = true) :
    (compareToNorm r value).1 = .vfloat 0 ∧
    (compareToNorm r value).2 =
      normDurBug (.vfloat 0)
        (timeToFloat (derefOnce (derefOnce (zeroSubstA r)))) := by
  have hb : normB1 (derefOnce (zeroSubstA r)) value =
      (.vfloat 0, derefOnce (zeroSubstA r)) := by
    rcases h with h | ⟨v, hv, hz⟩
    · simp [normB1, h]
    · simp [normB1, hv, hz]
  simp [compareToNorm, hb, timeToFloat, durToFloat]

/-- C1, witness: the amended statement at `("abc", nil)`. -/
theorem claim_C1_witness :
    (compareToNorm (.vstr ("abc")) none).1 = .vfloat 0 ∧
    (compareToNorm (.vstr ("abc")) none).2 =
      normDurBug (.vfloat 0)
        (timeToFloat (derefOnce (derefOnce (zeroSubstA (.vstr ("abc")))))) :=
  claim_C1_swap_zero_left (.vstr ("abc")) none (Or.inl rfl)

/-- C2, counterexample.  The claim says `CompareTo(a, a, "<=")` is true
for EVERY `a`; for `a = true` (boolean kind) the ordering operators fail
with the `impossible_comparison` error instead. -/
theorem claim_C2_counterexample :
    CompareTo (.vbool true) (some (.vbool true)) ("<=") =
      .error .invalidComparison := by
  rfl

/-- C2 (amended): if the operand's normalised form is the float64 NaN,
IEEE semantics make `CompareTo(a, a, "=")` FALSE, `"!="` true and every
ordering operator false.  For every other `a` in the domain, `=` is true
and `!=` false, and each ordering operator answers reflexively (true for
`<=`/`>=`, false for `<`/`>`) whenever it succeeds — which it does for
operands whose normalised form is of numeric or string kind, including
deep-zero values, times and durations — and otherwise fails with the
`impossible_comparison` error.  (Non-nil function operands are outside
the domain: in Go they panic inside `IsZero` instead of returning.) -/
theorem claim_C2_reflexivity (a : GoVal) :
    (durToFloat (timeToFloat (derefOnce (zeroSubstA a))) = .vfloat .nan →
      CompareTo a (some a) ("=") = .ok false ∧
      CompareTo a (some a) ("!=") = .ok true ∧
      CompareTo a (some a) ("<=") = .ok false ∧
      CompareTo a (some a) (">=") = .ok false ∧
      CompareTo a (some a) ("<") = .ok false ∧
      CompareTo a (some a) (">") = .ok false) ∧
    (durToFloat (timeToFloat (derefOnce (zeroSubstA a))) ≠ .vfloat .nan →
      CompareTo a (some a) ("=") = .ok true ∧
      CompareTo a (some a) ("!=") = .ok false ∧
      (CompareTo a (some a) ("<=") = .ok true ∨
        CompareTo a (some a) ("<=") = .error .invalidComparison) ∧
      (CompareTo a (some a) (">=") = .ok true ∨
        CompareTo a (some a) (">=") = .error .invalidComparison) ∧
      (CompareTo a (some a) ("<") = .ok false ∨
        CompareTo a (some a) ("<") = .error .invalidComparison) ∧
      (CompareTo a (some a) (">") = .ok false ∨
        CompareTo a (some a) (">") = .error .invalidComparison)) := by
  have hn := compareToNorm_self a
  constructor
  · intro h
    rw [h] at hn
    refine ⟨?_, ?_, ?_, ?_, ?_, ?_⟩ <;>
      simp +decide [CompareTo, canonOp, hn, compareToDispatch, convertToType,
        GoVal.typeOf, kindOf, IsNumericKind, compareFloat64Values, goFloatEq,
        goFloatLt, goFloatLe]
  · intro h
    obtain ⟨h1, h2, h3, h4, h5, h6⟩ :=
      dispatchRefl (durToFloat (timeToFloat (derefOnce (zeroSubstA a)))) h
    refine ⟨?_, ?_, ?_, ?_, ?_, ?_⟩ <;>
      simp +decide [CompareTo, canonOp, hn, h1, h2, h3, h4, h5, h6]

/-- C2, witness: the NaN clause at `CompareTo(NaN, NaN, "=")` (false)
and the ordinary clause at `CompareTo(3, 3, "=")` (true), hypotheses
discharged by evaluation. -/
theorem claim_C2_witness :
    CompareTo (.vfloat .nan) (some (.vfloat .nan)) ("=") = .ok false ∧
    CompareTo (.vint 3) (some (.vint 3)) ("=") = .ok true :=
  ⟨((claim_C2_reflexivity (.vfloat .nan)).1 (by rfl)).1,
   ((claim_C2_reflexivity (.vint 3)).2 (by decide)).1⟩

/-- C3: element-wise slice conversion, evaluated at concrete inputs.
Converting `[]int{1, 2}` to `[]float64` converts every element and
collects them into a fresh target-typed slice; an inconvertible element
(`[]bool` to `[]int`) aborts with `type_mismatch`; BUT a nil pointer
element (`[]*int{nil}` to `[]int`) makes the loop dereference a nil
wrapper and panic — contradicting both the claim's `TypeMismatch`
failure mode and the `ConvertToType` documentation (`Can not panic!`) —
and an empty source returns the fresh slice VIEW object instead of a
sequence. -/
theorem claim_C3_slice_conversion :
    convertToType (.vslice .tint (.cons (.vint 1) (.cons (.vint 2) .nil)))
        (.tslice .tfloat64) =
      .ok (.val (.vslice .tfloat64 (.cons (.vfloat 1) (.cons (.vfloat 2) .nil)))) ∧
    convertToType (.vslice .tbool (.cons (.vbool true) .nil)) (.tslice .tint) =
      .error .typeMismatch ∧
    convertToType (.vslice (.tptr .tint) (.cons (.vptrNil .tint) .nil))
        (.tslice .tint) =
      .error .goPanicNilReflector ∧
    convertToType (.vslice .tbool .nil) (.tslice .tint) =
      .ok (.sliceRefl ⟨.tint, [], true⟩) := by
  exact ⟨by rfl, by rfl, by rfl, by rfl⟩

/-- C4, counterexample.  The claim says `CompareTo([]int{1}, 22, "=")`
fails with `InvalidComparison`; it actually fails with the `Conversion
error:` wrapping of `unconvertable_types`, raised while converting the
slice to float64 on the numeric path. -/
theorem claim_C4_counterexample :
    CompareTo (.vslice .tint (.cons (.vint 1) .nil)) (some (.vint 22)) ("=") =
      .error (.conversionError .unconvertableTypes) ∧
    (Except.error (GoErr.conversionError .unconvertableTypes) :
        Except GoErr Bool) ≠ .error .invalidComparison := by
  exact ⟨by rfl, by simp⟩

/-- C4 (amended): `CompareTo([]int{1}, 22, "=")` fails, but with a
conversion failure wrapping `unconvertable_types` (the slice cannot be
converted to float64 on the numeric path forced by the numeric right
operand), not with `InvalidComparison`. -/
theorem claim_C4_numeric_path :
    CompareTo (.vslice .tint (.cons (.vint 1) .nil)) (some (.vint 22)) ("=") =
      .error (.conversionError .unconvertableTypes) := by
  rfl

/-- C5: with a textual source and target `time.Time` (or a pointer to
it), the conversion engine parses the string with the RFC3339 profile:
a successful parse returns the instant (or a pointer to it), and every
malformed string fails with the `invalid_time` error kind, not a generic
conversion error. -/
theorem claim_C5_time_parse (s : String) :
    (parseRFC3339 s = none →
      convertToType (.vstr s) .ttime = .error .invalidTime ∧
      convertToType (.vstr s) (.tptr .ttime) = .error .invalidTime) ∧
    (∀ n : Int, parseRFC3339 s = some n →
      convertToType (.vstr s) .ttime = .ok (.val (.vtime n)) ∧
      convertToType (.vstr s) (.tptr .ttime) =
        .ok (.val (.vptr .ttime (.vtime n)))) := by
  constructor
  · intro h
    constructor <;>
      simp +decide [convertToType, GoVal.typeOf, kindOf, GoVal.IsSlice,
        GoVal.IsPtr, GoType.elemType, h]
  · intro n h
    constructor <;>
      simp +decide [convertToType, GoVal.typeOf, kindOf, GoVal.IsSlice,
        GoVal.IsPtr, GoType.elemType, h]

/-- C5, witness: a malformed string fails with `invalid_time`, and the
test suite's RFC3339 sample parses to its instant. -/
theorem claim_C5_witness :
    convertToType (.vstr ("not-a-date")) .ttime = .error .invalidTime ∧
    convertToType (.vstr ("2012-05-23T18:30:00.000-05:00")) .ttime =
      .ok (.val (.vtime 1337815800000000000)) :=
  ⟨((claim_C5_time_parse ("not-a-date")).1 (by rfl)).1,
   ((claim_C5_time_parse ("2012-05-23T18:30:00.000-05:00")).2
      1337815800000000000 (by rfl)).1⟩

/-- C6: whenever either normalised operand is of numeric kind, the
comparison converts BOTH operands to float64 and evaluates the operator
on the two values, `=`/`!=` being exact equality with no epsilon; in
particular `CompareTo(uint(30), 20.0, ">=")` is true, and the test
scenarios `10 < 20` and `10 = 20` behave as expected. -/
theorem claim_C6_numeric_compare :
    (∀ (r : GoVal) (value : Option GoVal) (op cop : String) (a b : GoVal)
        (x y : GoFloat),
      canonOp op = some cop →
      compareToNorm r value = (a, b) →
      (IsNumericKind (kindOf a.typeOf) || IsNumericKind (kindOf b.typeOf)) = true →
      convertToType a .tfloat64 = .ok (.val (.vfloat x)) →
      convertToType b .tfloat64 = .ok (.val (.vfloat y)) →
      CompareTo r value op = compareFloat64Values cop x y) ∧
    (∀ x y : Rat, compareFloat64Values ("=") (.num x) (.num y) = .ok (decide (x = y)) ∧
      compareFloat64Values ("!=") (.num x) (.num y) = .ok (decide (x ≠ y))) ∧
    CompareTo (.vuint 30) (some (.vfloat 20)) (">=") = .ok true ∧
    CompareTo (.vint 10) (some (.vint 20)) ("<") = .ok true ∧
    CompareTo (.vint 10) (some (.vint 20)) ("=") = .ok false := by
  refine ⟨?_, ?_, by rfl, by rfl, by rfl⟩
  · intro r value op cop a b x y hop hnorm hnum hx hy
    simp [CompareTo, hop, hnorm, compareToDispatch, hnum, hx, hy]
  · intro x y
    constructor <;> simp +decide [compareFloat64Values, goFloatEq, decide_not]

/-- C6, witness: the numeric-branch equation at
`CompareTo(uint(3), 7, "<")`, all hypotheses discharged by evaluation. -/
theorem claim_C6_witness :
    CompareTo (.vuint 3) (some (.vint 7)) ("<") =
      compareFloat64Values ("<") 3 7 :=
  claim_C6_numeric_compare.1 (.vuint 3) (some (.vint 7)) ("<") ("<")
    (.vuint 3) (.vint 7) 3 7 (by rfl) (by rfl) (by rfl) (by rfl) (by rfl)

/-- C7: for a textual source and boolean target, the whitespace-trimmed,
lower-cased text decides the result — `y`/`yes`/`1` convert to true,
`n`/`no`/`0` to false — and every other string falls through to the
later conversion steps, which for a boolean target end in
`unconvertable_types` rather than success on this rule. -/
theorem claim_C7_string_bool (s : String) :
    ((goToLower (goTrimSpace s) = "y" ∨ goToLower (goTrimSpace s) = "yes" ∨
        goToLower (goTrimSpace s) = "1") →
      convertToType (.vstr s) .tbool = .ok (.val (.vbool true))) ∧
    ((goToLower (goTrimSpace s) = "n" ∨ goToLower (goTrimSpace s) = "no" ∨
        goToLower (goTrimSpace s) = "0") →
      convertToType (.vstr s) .tbool = .ok (.val (.vbool false))) ∧
    (¬(goToLower (goTrimSpace s) = "y" ∨ goToLower (goTrimSpace s) = "yes" ∨
        goToLower (goTrimSpace s) = "1" ∨ goToLower (goTrimSpace s) = "n" ∨
        goToLower (goTrimSpace s) = "no" ∨ goToLower (goTrimSpace s) = "0") →
      convertToType (.vstr s) .tbool = .error .unconvertableTypes) := by
  refine ⟨?_, ?_, ?_⟩
  · rintro (h | h | h) <;>
      simp +decide [convertToType, GoVal.typeOf, kindOf, GoVal.IsSlice,
        GoVal.IsPtr, GoVal.IsString, GoType.elemType, boolSpecial, h]
  · rintro (h | h | h) <;>
      simp +decide [convertToType, GoVal.typeOf, kindOf, GoVal.IsSlice,
        GoVal.IsPtr, GoVal.IsString, GoType.elemType, boolSpecial, h]
  · intro h
    push_neg at h
    obtain ⟨h1, h2, h3, h4, h5, h6⟩ := h
    simp +decide [convertToType, GoVal.typeOf, kindOf, GoVal.IsSlice,
      GoVal.IsPtr, GoVal.IsString, GoType.elemType, boolSpecial,
      h1, h2, h3, h4, h5, h6, stringerOf, nativeConvert, IsNumericKind]

/-- C7, witness: the three regimes at ` YES `, `No` and `maybe`. -/
theorem claim_C7_witness :
    convertToType (.vstr (" YES ")) .tbool = .ok (.val (.vbool true)) ∧
    convertToType (.vstr ("No")) .tbool = .ok (.val (.vbool false)) ∧
    convertToType (.vstr ("maybe")) .tbool = .error .unconvertableTypes :=
  ⟨(claim_C7_string_bool (" YES ")).1 (Or.inr (Or.inl (by rfl))),
   (claim_C7_string_bool ("No")).2.1 (Or.inr (Or.inl (by rfl))),
   (claim_C7_string_bool ("maybe")).2.2 (by decide)⟩

/-- C8: appending a value whose type differs from the element type of an
appendable slice view fails with `type_mismatch`, and the underlying
slice — in particular its length — is unchanged. -/
theorem claim_C8_append_mismatch (s : SliceRefl) (v : GoVal)
    (hA : s.canAppend = true) (hT : v.typeOf ≠ s.elemTy) :
    s.Append [v] = (some .typeMismatch, s) ∧
    (s.Append [v]).2.elems.length = s.elems.length := by
  have h1 : s.Append [v] = (some .typeMismatch, s) := by
    simp [SliceRefl.Append, hA, appendCheck, hT]
  exact ⟨h1, by rw [h1]⟩

/-- C8, witness: appending a string to an `[]int` view. -/
theorem claim_C8_witness :
    SliceRefl.Append ⟨.tint, [.vint 1], true⟩ [.vstr ("x")] =
      (some .typeMismatch, ⟨.tint, [.vint 1], true⟩) :=
  (claim_C8_append_mismatch ⟨.tint, [.vint 1], true⟩ (.vstr ("x"))
    (by rfl) (by decide)).1

/-- C9: `IsNil` holds exactly for the nil values of the nil-able kinds
(nil pointers, nil slices, nil maps, nil channels, the nil function);
every value of a non-nil-able kind reports false.  The function is total
on the domain — the kind switch is what shields the underlying
`reflect.Value.IsNil` call, which would fault on other kinds. -/
theorem claim_C9_isnil (v : GoVal) :
    (v.IsNil = true ↔ ((∃ e, v = .vptrNil e) ∨ (∃ e, v = .vsliceNil e) ∨
      v = .vmap true ∨ v = .vchan true ∨ v = .vfunc)) ∧
    (nilableKind (kindOf v.typeOf) = false → v.IsNil = false) := by
  cases v <;> simp [GoVal.IsNil, nilableKind, kindOf, GoVal.typeOf]

/-- C9, witness: an integer (non-nil-able kind) is never nil, a nil
pointer is. -/
theorem claim_C9_witness :
    GoVal.IsNil (.vint 3) = false ∧ GoVal.IsNil (.vptrNil .tint) = true :=
  ⟨(claim_C9_isnil (.vint 3)).2 (by rfl),
   (claim_C9_isnil (.vptrNil .tint)).1.mpr (Or.inl ⟨.tint, rfl⟩)⟩

/-- C10: for every slice view and every non-negative index at or past
the length, `Index` answers the absent sentinel and `IndexValue`
answers nil, with no fault. -/
theorem claim_C10_index_bounds (s : SliceRefl) (i : Int) (_h0 : 0 ≤ i)
    (h : (s.Len : Int) ≤ i) : s.Index i = none ∧ s.IndexValue i = none := by
  have hgt : i > (s.Len : Int) - 1 := by omega
  constructor
  · simp [SliceRefl.Index, hgt]
  · simp [SliceRefl.IndexValue, SliceRefl.Index, hgt]

/-- C10, witness: index 5 of a one-element view. -/
theorem claim_C10_witness :
    SliceRefl.Index ⟨.tint, [.vint 9], false⟩ 5 = none ∧
    SliceRefl.IndexValue ⟨.tint, [.vint 9], false⟩ 5 = none :=
  claim_C10_index_bounds ⟨.tint, [.vint 9], false⟩ 5 (by decide) (by decide)
